import Mathlib

/-!
Shallow embedding of the Footron controls client (`src/core/client.ts`,
`src/core/messages.ts`, `src/core/types.ts`, `src/core/errors.ts`).

The client is a single-threaded event-driven class.  We model one
synchronous segment of execution (an event-handler run, or the prefix of
an `async` method up to its first `await`) as one step of a transition
function over an explicit state record.  Timers, the access callback and
promise continuations are represented by explicit fields/operations;
listener callbacks are opaque identifiers (`Nat`) and deliveries to them
are recorded as emitted events.  Thrown JS errors are `Except.error`.
-/

namespace FootronControls

/-- `ClientConnectionStatus` from types.ts: "idle" | "loading" | "open" | "closed". -/
inductive ClientConnectionStatus
  | idle
  | loading
  | open_
  | closed
deriving DecidableEq

/-- String form of a status, for messages interpolating `${result.status}`. -/
def statusString : ClientConnectionStatus → String
  | ClientConnectionStatus.idle => "idle"
  | ClientConnectionStatus.loading => "loading"
  | ClientConnectionStatus.open_ => "open"
  | ClientConnectionStatus.closed => "closed"

/-- `ConnectionStatusResult` from types.ts: a status, and (only for "closed") an
optional reason. -/
structure ConnectionStatusResult where
  status : ClientConnectionStatus
  reason : Option String
deriving DecidableEq

/-- Shape of a JS value appearing as an application message body.  Only the
shape matters to the client (`messageIsEmptyInitial` checks
`typeof m === "object" && m !== null && !Array.isArray(m) && "__start" in m`),
so objects are modelled by their key list and arrays by their length. -/
inductive Payload
  | null
  | bool (b : Bool)
  | num (n : Int)
  | str (s : String)
  | arr (len : Nat)
  | obj (keys : List String)
deriving DecidableEq

/-- `ControlsClient.messageIsEmptyInitial`: a non-null, non-array object value
containing the key "__start". -/
def messageIsEmptyInitial : Payload → Bool
  | Payload.obj keys => keys.contains "__start"
  | _ => false

/-- Inbound/outbound protocol envelopes from messages.ts (the `version` field,
stamped on send and unread on receive, is omitted).  Heartbeat carries
`app : string`; Access carries a nullable `app`. -/
inductive Message
  | heartbeat (app : String) (up : Bool)
  | connect (app : Option String)
  | access (app : Option String) (accepted : Bool) (reason : Option String)
  | lifecycle (paused : Bool)
  | error (error : String)
  | applicationClient (body : Payload) (req : Option String)
  | applicationApp (body : Payload) (req : Option String)
deriving DecidableEq

/-- `MessageCallbackInfo` from client.ts. -/
structure MessageCallbackInfo where
  ignoreEmptyInitialMessage : Bool
deriving DecidableEq

/-- The options object of `addMessageListener` (both fields optional in TS). -/
structure AddMessageListenerOptions where
  ignoreEmptyInitialMessage : Option Bool := none
  queueCount : Option Nat := none
deriving DecidableEq

/-- Outcome of a `sendRequest` promise: resolved with a response body, or
rejected with the timeout error. -/
inductive RequestOutcome
  | resolved (body : Payload)
  | timedOut
deriving DecidableEq

/-- One entry of the `requests` map.  In the source the map value is the
callback closure `(body) => { clearTimeout(timeoutId); resolve(body); }`;
we model the state it captures: whether its `setTimeout` timer is still
armed, and whether (and how) its promise has settled. -/
structure RequestEntry where
  timerArmed : Bool
  outcome : Option RequestOutcome
deriving DecidableEq

/-- JS `Map.get` over an insertion-ordered association list. -/
def jsMapGet {α β : Type} [DecidableEq α] (m : List (α × β)) (k : α) : Option β :=
  match m.find? (fun p => p.1 = k) with
  | some p => some p.2
  | none => none

/-- JS `Map.has`. -/
def jsMapContains {α β : Type} [DecidableEq α] (m : List (α × β)) (k : α) : Bool :=
  (jsMapGet m k).isSome

/-- JS `Map.set`: replaces the value in place if the key exists, else appends. -/
def jsMapSet {α β : Type} [DecidableEq α] (m : List (α × β)) (k : α) (v : β) :
    List (α × β) :=
  if (m.find? (fun p => p.1 = k)).isSome then
    m.map (fun p => if p.1 = k then (k, v) else p)
  else
    m ++ [(k, v)]

/-- JS `Map.delete`. -/
def jsMapDelete {α β : Type} [DecidableEq α] (m : List (α × β)) (k : α) :
    List (α × β) :=
  m.filter (fun p => p.1 ≠ k)

/-- JS `Set.add` over an insertion-ordered list: a no-op if already present. -/
def jsSetAdd (s : List Nat) (x : Nat) : List Nat :=
  if s.contains x then s else s ++ [x]

/-- JS `Set.delete`. -/
def jsSetDelete (s : List Nat) (x : Nat) : List Nat :=
  s.filter (fun y => y ≠ x)

def DEFAULT_MESSAGE_QUEUE_SIZE : Nat := 256
def DEFAULT_LOADING_TIMEOUT_MS : Nat := 10000
def DEFAULT_REQUEST_TIMEOUT_MS : Nat := 10000
def CONNECTION_REQUEST_POLL_INTERVAL_MS : Nat := 500

/-- `MessageQueueConfig` from client.ts. -/
structure MessageQueueConfig where
  size : Option Nat := none
deriving DecidableEq

/-- The `messageQueue` config field is `boolean | MessageQueueConfig | undefined`. -/
inductive MessageQueueOption
  | bool (b : Bool)
  | cfg (c : MessageQueueConfig)
deriving DecidableEq

/-- `ControlsClientConfig` from client.ts. -/
structure ControlsClientConfig where
  queueSize : Option Nat := none
  messageQueue : Option MessageQueueOption := none
deriving DecidableEq

/-- Constructor logic for `messageQueueSize`:
`config?.messageQueue && typeof config?.messageQueue === "object" &&
config?.messageQueue.size ? config?.messageQueue.size : DEFAULT_MESSAGE_QUEUE_SIZE`.
A boolean `messageQueue` fails the `typeof` test, and a `size` of 0 is falsy. -/
def messageQueueSizeOf (config : ControlsClientConfig) : Nat :=
  match config.messageQueue with
  | some (MessageQueueOption.cfg c) =>
    match c.size with
    | some n => if n = 0 then DEFAULT_MESSAGE_QUEUE_SIZE else n
    | none => DEFAULT_MESSAGE_QUEUE_SIZE
  | _ => DEFAULT_MESSAGE_QUEUE_SIZE

/-- Observable effects of one synchronous segment.  A `statusNotify` event is
one `notifyStatusListeners` broadcast (recipients are the status listeners
registered at that moment); a `messageNotify` event is one
`notifyMessageListeners` broadcast.  `requestResolve`/`requestRejectTimeout`
record a request promise settling. -/
inductive Event
  | statusNotify (recipients : List Nat) (result : ConnectionStatusResult)
  | messageNotify (recipients : List Nat) (body : Payload)
  | requestResolve (id : String) (body : Payload)
  | requestRejectTimeout (id : String)
  | socketClosed
deriving DecidableEq

/-- The mutable state of a `ControlsClient` instance.  `messageQueue` entries
are `Option Payload`, `none` modelling the empty slots of `new Array(n)`
(which JS `forEach`/`slice` treat as holes); `accessCallbackInstalled` and
`pendingStatusListener` model the access callback and the cancellable status
listener installed by `requestAppConnection`; `loadingTimeoutArmed` models
`loadingTimeoutId !== undefined`. -/
structure ClientState where
  endpoint : String
  authCode : Option String
  status : ClientConnectionStatus
  clientAppId : Option String
  connectionAppId : Option String
  paused : Bool
  messageQueueSize : Nat
  messageQueue : List (Option Payload)
  messageListeners : List Nat
  messageListenersInfo : List (Nat × MessageCallbackInfo)
  statusListeners : List Nat
  requests : List (String × RequestEntry)
  accessCallbackInstalled : Bool
  pendingStatusListener : Option Nat
  loadingTimeoutArmed : Bool
  socketOpen : Bool
deriving DecidableEq

/-- The `ControlsClient` constructor. -/
def constructorState (endpoint : String) (authCode : Option String)
    (config : ControlsClientConfig) : ClientState :=
  let size := messageQueueSizeOf config
  { endpoint := endpoint
    authCode := authCode
    status := ClientConnectionStatus.idle
    clientAppId := none
    connectionAppId := none
    paused := false
    messageQueueSize := size
    messageQueue := List.replicate size none
    messageListeners := []
    messageListenersInfo := []
    statusListeners := []
    requests := []
    accessCallbackInstalled := false
    pendingStatusListener := none
    loadingTimeoutArmed := false
    socketOpen := false }

/-- `notifyStatusListeners`: one broadcast to the currently registered status
listeners. -/
def notifyStatusListeners (s : ClientState) (result : ConnectionStatusResult) :
    List Event :=
  [Event.statusNotify s.statusListeners result]

/-- `setConnectionStatus(status, reason?)`: no-op when unchanged; otherwise set
the field and notify with `reason` only when the new status is "closed". -/
def setConnectionStatus (s : ClientState) (status : ClientConnectionStatus)
    (reason : Option String) : ClientState × List Event :=
  if status = s.status then (s, [])
  else
    let s1 := { s with status := status }
    (s1,
      notifyStatusListeners s1
        { status := status
          reason := if status = ClientConnectionStatus.closed then reason else none })

/-- `closeSocket`: closes the WebSocket if one is open. -/
def closeSocket (s : ClientState) : ClientState × List Event :=
  if s.socketOpen then ({ s with socketOpen := false }, [Event.socketClosed])
  else (s, [])

/-- `clearRequests`. -/
def clearRequests (s : ClientState) : ClientState :=
  { s with requests := [] }

/-- `clearStatusListeners`. -/
def clearStatusListeners (s : ClientState) : ClientState :=
  { s with statusListeners := [] }

/-- `clearMessageListeners`. -/
def clearMessageListeners (s : ClientState) : ClientState :=
  { s with messageListeners := [], messageListenersInfo := [] }

/-- `clearMessageQueue`: `this.messageQueue.length = 0`. -/
def clearMessageQueue (s : ClientState) : ClientState :=
  { s with messageQueue := [] }

/-- `close(reason?)`: returns immediately when already closed; otherwise
transition to "closed" (notifying the listeners registered at that point),
tear down the socket, and clear requests and both listener registries. -/
def close (s : ClientState) (reason : Option String) : ClientState × List Event :=
  if s.status = ClientConnectionStatus.closed then (s, [])
  else
    let p := setConnectionStatus s ClientConnectionStatus.closed reason
    let q := closeSocket p.1
    (clearMessageListeners (clearStatusListeners (clearRequests q.1)), p.2 ++ q.2)

/-- `startLoadingTimeout` (stops any previous timer, then arms a new one). -/
def startLoadingTimeout (s : ClientState) : ClientState :=
  { s with loadingTimeoutArmed := true }

/-- `stopLoadingTimeout`. -/
def stopLoadingTimeout (s : ClientState) : ClientState :=
  { s with loadingTimeoutArmed := false }

/-- The `while (queue.length > size) queue.shift()` loop of `pushMessageQueue`. -/
def evictOverflow (size : Nat) : List (Option Payload) → List (Option Payload)
  | [] => []
  | x :: xs => if xs.length + 1 > size then evictOverflow size xs else x :: xs

/-- `pushMessageQueue(message)` on a raw queue: append, then shift from the
front while the length exceeds the configured size. -/
def pushQueue (size : Nat) (q : List (Option Payload)) (m : Payload) :
    List (Option Payload) :=
  evictOverflow size (q ++ [some m])

/-- `pushMessageQueue` on the client state. -/
def pushMessageQueue (s : ClientState) (m : Payload) : ClientState :=
  { s with messageQueue := pushQueue s.messageQueueSize s.messageQueue m }

/-- A sequence of pushes. -/
def pushAll (size : Nat) (q : List (Option Payload)) (ms : List Payload) :
    List (Option Payload) :=
  ms.foldl (pushQueue size) q

/-- The queue as built by the constructor: `new Array(size)`, i.e. `size` holes. -/
def initialMessageQueue (size : Nat) : List (Option Payload) :=
  List.replicate size none

/-- The per-listener filter of `notifyMessageListeners`:
`this.messageListenersInfo.get(listener)?.ignoreEmptyInitialMessage ?? true`. -/
def listenerIgnoresEmptyInitial (s : ClientState) (listener : Nat) : Bool :=
  match jsMapGet s.messageListenersInfo listener with
  | some info => info.ignoreEmptyInitialMessage
  | none => true

/-- `notifyMessageListeners(message)`: when the message is the empty-initial
sentinel, deliver only to listeners that opted out of ignoring it; otherwise
deliver to all message listeners. -/
def notifyMessageListeners (s : ClientState) (message : Payload) : List Event :=
  let listeners :=
    if messageIsEmptyInitial message then
      s.messageListeners.filter (fun l => !(listenerIgnoresEmptyInitial s l))
    else s.messageListeners
  [Event.messageNotify listeners message]

/-- `addMessageListener(listener, options?)`: register the listener and its
info, then (unless the effective `queueCount` is falsy) synchronously replay
`messageQueue.slice(0, queueCount)` to it; `forEach` skips array holes.  The
second component is the list of replayed payloads in delivery order. -/
def addMessageListener (s : ClientState) (listener : Nat)
    (options : Option AddMessageListenerOptions) : ClientState × List Payload :=
  let ignoreEmptyInitialMessage :=
    (options.bind AddMessageListenerOptions.ignoreEmptyInitialMessage).getD true
  let queueCount := (options.bind AddMessageListenerOptions.queueCount).getD
    s.messageQueueSize
  let s1 := { s with
    messageListeners := jsSetAdd s.messageListeners listener
    messageListenersInfo := jsMapSet s.messageListenersInfo listener
      { ignoreEmptyInitialMessage := ignoreEmptyInitialMessage } }
  if queueCount = 0 then (s1, [])
  else (s1, (s1.messageQueue.take queueCount).filterMap (fun x => x))

/-- `removeMessageListener`. -/
def removeMessageListener (s : ClientState) (listener : Nat) : ClientState :=
  { s with
    messageListeners := jsSetDelete s.messageListeners listener
    messageListenersInfo := jsMapDelete s.messageListenersInfo listener }

/-- `addStatusListener`. -/
def addStatusListener (s : ClientState) (listener : Nat) : ClientState :=
  { s with statusListeners := jsSetAdd s.statusListeners listener }

/-- `removeStatusListener`. -/
def removeStatusListener (s : ClientState) (listener : Nat) : ClientState :=
  { s with statusListeners := jsSetDelete s.statusListeners listener }

/-- JS falsiness of a `string | null` value (`!x` is true for `null`,
`undefined` and the empty string). -/
def jsFalsyString : Option String → Bool
  | none => true
  | some a => a == ""

/-- Synchronous prefix of `startAppConnection`, up to its first suspension
(`await this.socketReady()`): clear the queue and requests, enter "loading",
arm the loading timeout and null out `connectionAppId`. -/
def startAppConnectionSync (s : ClientState) : ClientState × List Event :=
  let s2 := clearRequests (clearMessageQueue s)
  let p := setConnectionStatus s2 ClientConnectionStatus.loading none
  ({ startLoadingTimeout p.1 with connectionAppId := none }, p.2)

/-- `setApp(appId)` (its synchronous prefix): record the requested app, force
"idle" (cancelling any in-flight connection attempt), and either null out
`connectionAppId` (for `null`) or run the start of `startAppConnection`. -/
def setApp (s : ClientState) (appId : Option String) : ClientState × List Event :=
  let s1 := { s with clientAppId := appId }
  let p := setConnectionStatus s1 ClientConnectionStatus.idle none
  match appId with
  | none => ({ p.1 with connectionAppId := none }, p.2)
  | some _ =>
    let q := startAppConnectionSync p.1
    (q.1, p.2 ++ q.2)

/-- Synchronous body of `requestAppConnection`: start the connect-request poll
interval, install the access callback, and register the cancellable status
listener (modelled by the opaque id `listenerId`). -/
def requestAppConnectionStart (s : ClientState) (listenerId : Nat) : ClientState :=
  addStatusListener
    { s with accessCallbackInstalled := true, pendingStatusListener := some listenerId }
    listenerId

/-- The `removeListeners` closure of `requestAppConnection`: clear the poll
interval, uninstall the access callback and remove the cancellable status
listener. -/
def accessRemoveListeners (s : ClientState) : ClientState :=
  match s.pendingStatusListener with
  | some l =>
    removeStatusListener
      { s with accessCallbackInstalled := false, pendingStatusListener := none } l
  | none => { s with accessCallbackInstalled := false }

/-- The two guards applied to every non-Access, non-Heartbeat inbound message:
`if (!this.connectionAppId) throw ...` (JS falsiness, so an empty-string app id
also throws) and `if (this.connectionAppId !== this.clientAppId) throw ...`.
Returns the error to throw, if any. -/
def nonAccessGuard (s : ClientState) (typeCode : String) : Option String :=
  if jsFalsyString s.connectionAppId then
    some ("Router sent an app-generated message of type '" ++ typeCode ++
      "' but current app is unknown")
  else if s.connectionAppId ≠ s.clientAppId then
    some ("Can't process non-access message type while connection app ID " ++
      "and client app ID differ")
  else none

/-- The tail of the ApplicationApp branch for a message without a (truthy)
correlation id: push to the queue unless the body is the empty-initial
sentinel, then fan out to message listeners. -/
def handleAppBody (s : ClientState) (body : Payload) : ClientState × List Event :=
  let s1 := if messageIsEmptyInitial body then s else pushMessageQueue s body
  (s1, notifyMessageListeners s1 body)

/-- `onMessage` dispatch over an already-parsed message.  Thrown `Error`s are
`Except.error` with the thrown message text. -/
def onMessage (s : ClientState) (message : Message) :
    Except String (ClientState × List Event) :=
  match message with
  | Message.access app accepted _reason =>
    match app with
    | none => Except.ok (close s (some "Connection was closed"))
    | some a =>
      if !s.accessCallbackInstalled then
        Except.error "Received access response without existing request"
      else if some a ≠ s.clientAppId then
        Except.error "Received access response from a different app than requested"
      else
        -- `this.accessCallback({accepted, reason, app})`: the installed
        -- callback (the closure in `requestAppConnection`) sets
        -- `connectionAppId` to the granted app when accepted (null
        -- otherwise), runs `removeListeners`, and resolves the negotiation
        -- promise (whose continuation is a later segment).
        Except.ok
          (accessRemoveListeners
            { s with connectionAppId := if accepted then some a else none }, [])
  | Message.heartbeat app _up =>
    if some app ≠ s.clientAppId then
      Except.error "Received heartbeat message for an app that was not requested"
    else Except.ok (s, [])
  | Message.applicationApp body req =>
    match nonAccessGuard s "app" with
    | some e => Except.error e
    | none =>
      -- `if (message.req)`: a truthy (present, non-empty) correlation id
      -- selects the request-response path.
      match req with
      | some r =>
        if r ≠ "" then
          if !(jsMapContains s.requests r) then
            -- Just ignore any responses without any corresponding pending
            -- requests
            Except.ok (s, [])
          else
            match jsMapGet s.requests r with
            | some entry =>
              -- `this.requests.get(message.req)?.(message.body)`: the stored
              -- callback clears its timer and resolves its promise (resolving
              -- is a no-op if the promise already settled).  The entry itself
              -- is not deleted from the map.
              Except.ok
                ({ s with
                    requests := jsMapSet s.requests r
                      { timerArmed := false
                        outcome :=
                          match entry.outcome with
                          | none => some (RequestOutcome.resolved body)
                          | some o => some o } },
                  match entry.outcome with
                  | none => [Event.requestResolve r body]
                  | some _ => [])
            | none => Except.ok (s, [])
        else Except.ok (handleAppBody s body)
      | none => Except.ok (handleAppBody s body)
  | Message.connect _ =>
    match nonAccessGuard s "con" with
    | some e => Except.error e
    | none => Except.ok (s, [])
  | Message.lifecycle _ =>
    match nonAccessGuard s "lcy" with
    | some e => Except.error e
    | none => Except.ok (s, [])
  | Message.error _ =>
    match nonAccessGuard s "err" with
    | some e => Except.error e
    | none => Except.ok (s, [])
  | Message.applicationClient _ _ =>
    match nonAccessGuard s "cap" with
    | some e => Except.error e
    | none => Except.ok (s, [])

/-- The registration step of `sendRequest`: after sending the envelope, a
fresh entry (armed timer, unsettled promise) is stored under the generated
correlation id. -/
def sendRequestRegister (s : ClientState) (requestId : String) : ClientState :=
  { s with
    requests := jsMapSet s.requests requestId { timerArmed := true, outcome := none } }

/-- The `setTimeout` closure of `sendRequest` firing: it only rejects the
promise (`reject(new Error(...))`); it does not touch the `requests` map.  It
can fire only while its timer is still armed (a matching response runs
`clearTimeout` first). -/
def requestTimeoutFire (s : ClientState) (requestId : String) :
    ClientState × List Event :=
  match jsMapGet s.requests requestId with
  | some entry =>
    if entry.timerArmed then
      ({ s with
          requests := jsMapSet s.requests requestId
            { timerArmed := false
              outcome :=
                match entry.outcome with
                | none => some RequestOutcome.timedOut
                | some o => some o } },
        match entry.outcome with
        | none => [Event.requestRejectTimeout requestId]
        | some _ => [])
    else (s, [])
  | none => (s, [])

/-- `setPaused`. -/
def setPaused (s : ClientState) (paused : Bool) : ClientState :=
  { s with paused := paused }

/-- `pause()`: set the flag (and send a lifecycle envelope), then clear the
message queue. -/
def pause (s : ClientState) : ClientState :=
  clearMessageQueue (setPaused s true)

/-- `unpause()`. -/
def unpause (s : ClientState) : ClientState :=
  setPaused s false

/-- Continuation of `startAppConnection` after `waitForFirstMessage` resolves:
disarm the loading timeout and enter "open". -/
def firstMessageContinue (s : ClientState) : ClientState × List Event :=
  setConnectionStatus (stopLoadingTimeout s) ClientConnectionStatus.open_ none

/-- One externally triggered synchronous segment of client execution. -/
inductive ClientOp
  | setAppOp (appId : Option String)
  | inbound (message : Message)
  | negotiationStartOp (listenerId : Nat)
  | accessRejectedContinueOp (reason : Option String)
  | firstMessageContinueOp
  | loadingTimeoutFireOp
  | sendRequestRegisterOp (requestId : String)
  | requestTimeoutFireOp (requestId : String)
  | addMessageListenerOp (listener : Nat) (options : Option AddMessageListenerOptions)
  | removeMessageListenerOp (listener : Nat)
  | addStatusListenerOp (listener : Nat)
  | removeStatusListenerOp (listener : Nat)
  | closeOp (reason : Option String)
  | pauseOp
  | unpauseOp
deriving DecidableEq

/-- The step function: runs one synchronous segment against the state,
returning the new state and the emitted events, or the thrown error. -/
def step (s : ClientState) (op : ClientOp) : Except String (ClientState × List Event) :=
  match op with
  | ClientOp.setAppOp appId => Except.ok (setApp s appId)
  | ClientOp.inbound message => onMessage s message
  | ClientOp.negotiationStartOp l => Except.ok (requestAppConnectionStart s l, [])
  | ClientOp.accessRejectedContinueOp reason => Except.ok (close s reason)
  | ClientOp.firstMessageContinueOp => Except.ok (firstMessageContinue s)
  | ClientOp.loadingTimeoutFireOp =>
    Except.ok (close s (some "Timed out attempting to connect"))
  | ClientOp.sendRequestRegisterOp rid => Except.ok (sendRequestRegister s rid, [])
  | ClientOp.requestTimeoutFireOp rid => Except.ok (requestTimeoutFire s rid)
  | ClientOp.addMessageListenerOp l opts =>
    let p := addMessageListener s l opts
    Except.ok (p.1, p.2.map (fun b => Event.messageNotify [l] b))
  | ClientOp.removeMessageListenerOp l => Except.ok (removeMessageListener s l, [])
  | ClientOp.addStatusListenerOp l => Except.ok (addStatusListener s l, [])
  | ClientOp.removeStatusListenerOp l => Except.ok (removeStatusListener s l, [])
  | ClientOp.closeOp reason => Except.ok (close s reason)
  | ClientOp.pauseOp => Except.ok (pause s, [])
  | ClientOp.unpauseOp => Except.ok (unpause s, [])

/-- Errors a pending connection wait can reject with: the dedicated
`CancelledError` marker class, or a plain `Error` with a message. -/
inductive ConnError
  | cancelled
  | errorMsg (msg : String)
deriving DecidableEq

/-- `ControlsClient.cancellableConnectionStatusCallback`: the status listener
registered for both the access-negotiation wait and the first-message wait;
returns the error value the wait promise is rejected with. -/
def cancellableConnectionStatusCallback (result : ConnectionStatusResult) : ConnError :=
  if result.status = ClientConnectionStatus.closed then
    ConnError.errorMsg "Connection closed while waiting for first application message"
  else if result.status = ClientConnectionStatus.idle then
    ConnError.cancelled
  else
    ConnError.errorMsg ("Connection status changed illegally to '" ++
      statusString result.status ++
      "' while attempting to connect to an app--this should not happen")

/-- How `startAppConnection` ends when one of its awaited waits is interrupted
by a status change, and whether the loading timeout is left armed. -/
structure InterruptOutcome where
  result : Except ConnError Unit
  loadingTimeoutArmed : Bool

/-- The `catch` clause of `startAppConnection` applied to the rejection
produced by `cancellableConnectionStatusCallback`: a `CancelledError` is
swallowed (`stopLoadingTimeout(); return`), anything else is rethrown to the
caller of `setApp`. -/
def startAppConnectionOnWaitInterrupt (loadingTimeoutArmed : Bool)
    (statusResult : ConnectionStatusResult) : InterruptOutcome :=
  match cancellableConnectionStatusCallback statusResult with
  | ConnError.cancelled => { result := Except.ok (), loadingTimeoutArmed := false }
  | e => { result := Except.error e, loadingTimeoutArmed := loadingTimeoutArmed }

/-- The invariant of claim C3: the confirmed app is never stale — it is null
or equal to the currently requested app. -/
def connAppIdInv (s : ClientState) : Prop :=
  s.connectionAppId = none ∨ s.connectionAppId = s.clientAppId

/-- A small queue configuration, to keep concrete computations light. -/
def exampleConfig : ControlsClientConfig :=
  { messageQueue := some (MessageQueueOption.cfg { size := some 4 }) }

/-- A reachable closed state: a freshly constructed client on which `close`
has been called. -/
def exampleClosedState : ClientState :=
  (close (constructorState "wss://host/messaging/in/" (some "abc") exampleConfig)
    (some "denied")).1

/-- A state mid-negotiation: `setApp("game1")` has run and
`requestAppConnection` has installed the access callback and the cancellable
status listener (id 0). -/
def exNegotiating : ClientState :=
  { constructorState "wss://host/messaging/in/" (some "abc") exampleConfig with
    status := ClientConnectionStatus.loading
    clientAppId := some "game1"
    statusListeners := [0]
    accessCallbackInstalled := true
    pendingStatusListener := some 0
    loadingTimeoutArmed := true
    messageQueue := [] }

/-- The state after an accepting access envelope for "game1" reaches
`exNegotiating`. -/
def exAccessGranted : ClientState :=
  { exNegotiating with
    connectionAppId := some "game1"
    accessCallbackInstalled := false
    pendingStatusListener := none
    statusListeners := [] }

/-- Whether an event is a status broadcast carrying status "closed". -/
def isClosedStatusNotify : Event → Bool
  | Event.statusNotify _ result => result.status == ClientConnectionStatus.closed
  | _ => false

/-- Number of "closed" status notifications among a list of events. -/
def countClosedNotifies (evs : List Event) : Nat :=
  (evs.filter isClosedStatusNotify).length

/-- Two successive `close` calls: the final state and the concatenated
events of both calls. -/
def closeTwice (s : ClientState) (r1 r2 : Option String) : ClientState × List Event :=
  ((close (close s r1).1 r2).1,
    (close s r1).2 ++ (close (close s r1).1 r2).2)

/-- A closed state with a status listener attached afterwards (listeners can
still be registered after closing, since `addStatusListener` has no guard). -/
def exClosedWithListener : ClientState :=
  { exampleClosedState with statusListeners := [7] }

/-- A state with a negotiated connection to "game1" and one pending request
"r1" (armed timer, unsettled promise). -/
def exReqPending : ClientState :=
  { constructorState "wss://host/messaging/in/" (some "abc") exampleConfig with
    status := ClientConnectionStatus.open_
    clientAppId := some "game1"
    connectionAppId := some "game1"
    messageQueue := []
    requests := [("r1", { timerArmed := true, outcome := none })] }

/-- A connected state with two message listeners: listener 1 keeps the default
`ignoreEmptyInitialMessage = true`, listener 2 opted out; one buffered payload. -/
def exListeners : ClientState :=
  { exReqPending with
    requests := []
    messageListeners := [1, 2]
    messageListenersInfo :=
      [(1, { ignoreEmptyInitialMessage := true }),
       (2, { ignoreEmptyInitialMessage := false })]
    messageQueue := [some (Payload.num 7)] }

/-- A connected state with no pending requests. -/
def exNoPending : ClientState :=
  { exReqPending with requests := [] }

/-- A state whose negotiated app id is the empty string (still "set and equal
to the requested id", but JS-falsy). -/
def exEmptyAppId : ClientState :=
  { exReqPending with
    requests := []
    clientAppId := some ""
    connectionAppId := some "" }

lemma connAppIdInv_congr {s s' : ClientState}
    (h1 : s'.connectionAppId = s.connectionAppId)
    (h2 : s'.clientAppId = s.clientAppId) (h : connAppIdInv s) : connAppIdInv s' := by
  unfold connAppIdInv at h ⊢
  rw [h1, h2]
  exact h

lemma setConnectionStatus_fst_connectionAppId (s : ClientState)
    (st : ClientConnectionStatus) (r : Option String) :
    (setConnectionStatus s st r).1.connectionAppId = s.connectionAppId := by
  unfold setConnectionStatus
  split <;> rfl

lemma setConnectionStatus_fst_clientAppId (s : ClientState)
    (st : ClientConnectionStatus) (r : Option String) :
    (setConnectionStatus s st r).1.clientAppId = s.clientAppId := by
  unfold setConnectionStatus
  split <;> rfl

lemma closeSocket_fst_connectionAppId (s : ClientState) :
    (closeSocket s).1.connectionAppId = s.connectionAppId := by
  unfold closeSocket
  split <;> rfl

lemma closeSocket_fst_clientAppId (s : ClientState) :
    (closeSocket s).1.clientAppId = s.clientAppId := by
  unfold closeSocket
  split <;> rfl

lemma close_fst_connectionAppId (s : ClientState) (r : Option String) :
    (close s r).1.connectionAppId = s.connectionAppId := by
  unfold close
  split
  · rfl
  · show (closeSocket (setConnectionStatus s ClientConnectionStatus.closed r).1).1.connectionAppId = _
    rw [closeSocket_fst_connectionAppId, setConnectionStatus_fst_connectionAppId]

lemma close_fst_clientAppId (s : ClientState) (r : Option String) :
    (close s r).1.clientAppId = s.clientAppId := by
  unfold close
  split
  · rfl
  · show (closeSocket (setConnectionStatus s ClientConnectionStatus.closed r).1).1.clientAppId = _
    rw [closeSocket_fst_clientAppId, setConnectionStatus_fst_clientAppId]

lemma setApp_fst_connectionAppId_none (s : ClientState) (a : Option String) :
    (setApp s a).1.connectionAppId = none := by
  cases a <;> rfl

lemma accessRemoveListeners_connectionAppId (s : ClientState) :
    (accessRemoveListeners s).connectionAppId = s.connectionAppId := by
  unfold accessRemoveListeners
  split <;> rfl

lemma accessRemoveListeners_clientAppId (s : ClientState) :
    (accessRemoveListeners s).clientAppId = s.clientAppId := by
  unfold accessRemoveListeners
  split <;> rfl

lemma handleAppBody_fst_connectionAppId (s : ClientState) (b : Payload) :
    (handleAppBody s b).1.connectionAppId = s.connectionAppId := by
  unfold handleAppBody pushMessageQueue
  split <;> rfl

lemma handleAppBody_fst_clientAppId (s : ClientState) (b : Payload) :
    (handleAppBody s b).1.clientAppId = s.clientAppId := by
  unfold handleAppBody pushMessageQueue
  split <;> rfl

lemma requestTimeoutFire_fst_connectionAppId (s : ClientState) (rid : String) :
    (requestTimeoutFire s rid).1.connectionAppId = s.connectionAppId := by
  unfold requestTimeoutFire
  split
  · split <;> rfl
  · rfl

lemma requestTimeoutFire_fst_clientAppId (s : ClientState) (rid : String) :
    (requestTimeoutFire s rid).1.clientAppId = s.clientAppId := by
  unfold requestTimeoutFire
  split
  · split <;> rfl
  · rfl

lemma firstMessageContinue_fst_connectionAppId (s : ClientState) :
    (firstMessageContinue s).1.connectionAppId = s.connectionAppId := by
  unfold firstMessageContinue
  rw [setConnectionStatus_fst_connectionAppId]
  rfl

lemma firstMessageContinue_fst_clientAppId (s : ClientState) :
    (firstMessageContinue s).1.clientAppId = s.clientAppId := by
  unfold firstMessageContinue
  rw [setConnectionStatus_fst_clientAppId]
  rfl

lemma addMessageListener_fst_connectionAppId (s : ClientState) (l : Nat)
    (o : Option AddMessageListenerOptions) :
    (addMessageListener s l o).1.connectionAppId = s.connectionAppId := by
  simp only [addMessageListener]
  split <;> rfl

lemma addMessageListener_fst_clientAppId (s : ClientState) (l : Nat)
    (o : Option AddMessageListenerOptions) :
    (addMessageListener s l o).1.clientAppId = s.clientAppId := by
  simp only [addMessageListener]
  split <;> rfl

/-- C3: whenever `connectionAppId` is assigned a non-null value it equals the
`clientAppId` current at that moment; across every constructor-initial state
and every execution step, `connectionAppId` is always either null or equal to
the most recently requested app — never stale. -/
theorem connectionAppId_never_stale :
    (∀ (endpoint : String) (authCode : Option String)
        (config : ControlsClientConfig),
        connAppIdInv (constructorState endpoint authCode config)) ∧
    ∀ (s : ClientState) (op : ClientOp) (s' : ClientState) (evs : List Event),
      connAppIdInv s → step s op = Except.ok (s', evs) → connAppIdInv s' := by
  refine ⟨fun _ _ _ => Or.inl rfl, ?_⟩
  intro s op s' evs hinv hstep
  cases op with
  | setAppOp appId =>
    simp only [step, Except.ok.injEq] at hstep
    have h1 : _ = s' := congrArg Prod.fst hstep
    left
    rw [← h1]
    exact setApp_fst_connectionAppId_none s appId
  | inbound message =>
    cases message with
    | access app accepted reason =>
      cases app with
      | none =>
        simp only [step, onMessage, Except.ok.injEq] at hstep
        have h1 : _ = s' := congrArg Prod.fst hstep
        exact connAppIdInv_congr (by rw [← h1]; exact close_fst_connectionAppId ..)
          (by rw [← h1]; exact close_fst_clientAppId ..) hinv
      | some a =>
        simp only [step, onMessage] at hstep
        split at hstep
        · exact absurd hstep (by simp)
        · split at hstep
          · exact absurd hstep (by simp)
          · rename_i hne
            simp only [Except.ok.injEq] at hstep
            have h1 : _ = s' := congrArg Prod.fst hstep
            have ha : s.clientAppId = some a := by
              push_neg at hne
              exact hne.symm
            cases accepted with
            | true =>
              right
              rw [← h1]
              simp only [accessRemoveListeners_connectionAppId,
                accessRemoveListeners_clientAppId]
              exact ha.symm
            | false =>
              left
              rw [← h1]
              rw [accessRemoveListeners_connectionAppId]
              rfl
    | heartbeat app up =>
      simp only [step, onMessage] at hstep
      split at hstep
      · exact absurd hstep (by simp)
      · simp only [Except.ok.injEq] at hstep
        have h1 : _ = s' := congrArg Prod.fst hstep
        exact connAppIdInv_congr (by rw [← h1]; try rfl) (by rw [← h1]; try rfl) hinv
    | applicationApp body req =>
      simp only [step, onMessage] at hstep
      split at hstep
      · exact absurd hstep (by simp)
      · cases req with
        | some r =>
          by_cases hr : r ≠ ""
          · simp only [if_pos hr] at hstep
            split at hstep
            · simp only [Except.ok.injEq] at hstep
              have h1 : _ = s' := congrArg Prod.fst hstep
              exact connAppIdInv_congr (by rw [← h1]; try rfl) (by rw [← h1]; try rfl) hinv
            · split at hstep
              · simp only [Except.ok.injEq] at hstep
                have h1 : _ = s' := congrArg Prod.fst hstep
                exact connAppIdInv_congr (by rw [← h1]; try rfl) (by rw [← h1]; try rfl) hinv
              · simp only [Except.ok.injEq] at hstep
                have h1 : _ = s' := congrArg Prod.fst hstep
                exact connAppIdInv_congr (by rw [← h1]; try rfl) (by rw [← h1]; try rfl) hinv
          · simp only [if_neg hr] at hstep
            simp only [Except.ok.injEq] at hstep
            have h1 : _ = s' := congrArg Prod.fst hstep
            exact connAppIdInv_congr (by rw [← h1]; exact handleAppBody_fst_connectionAppId ..)
              (by rw [← h1]; exact handleAppBody_fst_clientAppId ..) hinv
        | none =>
          simp only [Except.ok.injEq] at hstep
          have h1 : _ = s' := congrArg Prod.fst hstep
          exact connAppIdInv_congr (by rw [← h1]; exact handleAppBody_fst_connectionAppId ..)
            (by rw [← h1]; exact handleAppBody_fst_clientAppId ..) hinv
    | connect capp =>
      simp only [step, onMessage] at hstep
      split at hstep
      · exact absurd hstep (by simp)
      · simp only [Except.ok.injEq] at hstep
        have h1 : _ = s' := congrArg Prod.fst hstep
        exact connAppIdInv_congr (by rw [← h1]; try rfl) (by rw [← h1]; try rfl) hinv
    | lifecycle p =>
      simp only [step, onMessage] at hstep
      split at hstep
      · exact absurd hstep (by simp)
      · simp only [Except.ok.injEq] at hstep
        have h1 : _ = s' := congrArg Prod.fst hstep
        exact connAppIdInv_congr (by rw [← h1]; try rfl) (by rw [← h1]; try rfl) hinv
    | error e =>
      simp only [step, onMessage] at hstep
      split at hstep
      · exact absurd hstep (by simp)
      · simp only [Except.ok.injEq] at hstep
        have h1 : _ = s' := congrArg Prod.fst hstep
        exact connAppIdInv_congr (by rw [← h1]; try rfl) (by rw [← h1]; try rfl) hinv
    | applicationClient body req =>
      simp only [step, onMessage] at hstep
      split at hstep
      · exact absurd hstep (by simp)
      · simp only [Except.ok.injEq] at hstep
        have h1 : _ = s' := congrArg Prod.fst hstep
        exact connAppIdInv_congr (by rw [← h1]; try rfl) (by rw [← h1]; try rfl) hinv
  | negotiationStartOp l =>
    simp only [step, Except.ok.injEq] at hstep
    have h1 : _ = s' := congrArg Prod.fst hstep
    exact connAppIdInv_congr (by rw [← h1]; try rfl) (by rw [← h1]; try rfl) hinv
  | accessRejectedContinueOp reason =>
    simp only [step, Except.ok.injEq] at hstep
    have h1 : _ = s' := congrArg Prod.fst hstep
    exact connAppIdInv_congr (by rw [← h1]; exact close_fst_connectionAppId ..)
      (by rw [← h1]; exact close_fst_clientAppId ..) hinv
  | firstMessageContinueOp =>
    simp only [step, Except.ok.injEq] at hstep
    have h1 : _ = s' := congrArg Prod.fst hstep
    exact connAppIdInv_congr (by rw [← h1]; exact firstMessageContinue_fst_connectionAppId ..)
      (by rw [← h1]; exact firstMessageContinue_fst_clientAppId ..) hinv
  | loadingTimeoutFireOp =>
    simp only [step, Except.ok.injEq] at hstep
    have h1 : _ = s' := congrArg Prod.fst hstep
    exact connAppIdInv_congr (by rw [← h1]; exact close_fst_connectionAppId ..)
      (by rw [← h1]; exact close_fst_clientAppId ..) hinv
  | sendRequestRegisterOp rid =>
    simp only [step, Except.ok.injEq] at hstep
    have h1 : _ = s' := congrArg Prod.fst hstep
    exact connAppIdInv_congr (by rw [← h1]; try rfl) (by rw [← h1]; try rfl) hinv
  | requestTimeoutFireOp rid =>
    simp only [step, Except.ok.injEq] at hstep
    have h1 : _ = s' := congrArg Prod.fst hstep
    exact connAppIdInv_congr (by rw [← h1]; exact requestTimeoutFire_fst_connectionAppId ..)
      (by rw [← h1]; exact requestTimeoutFire_fst_clientAppId ..) hinv
  | addMessageListenerOp l opts =>
    simp only [step, Except.ok.injEq] at hstep
    have h1 : _ = s' := congrArg Prod.fst hstep
    exact connAppIdInv_congr (by rw [← h1]; exact addMessageListener_fst_connectionAppId ..)
      (by rw [← h1]; exact addMessageListener_fst_clientAppId ..) hinv
  | removeMessageListenerOp l =>
    simp only [step, Except.ok.injEq] at hstep
    have h1 : _ = s' := congrArg Prod.fst hstep
    exact connAppIdInv_congr (by rw [← h1]; try rfl) (by rw [← h1]; try rfl) hinv
  | addStatusListenerOp l =>
    simp only [step, Except.ok.injEq] at hstep
    have h1 : _ = s' := congrArg Prod.fst hstep
    exact connAppIdInv_congr (by rw [← h1]; try rfl) (by rw [← h1]; try rfl) hinv
  | removeStatusListenerOp l =>
    simp only [step, Except.ok.injEq] at hstep
    have h1 : _ = s' := congrArg Prod.fst hstep
    exact connAppIdInv_congr (by rw [← h1]; try rfl) (by rw [← h1]; try rfl) hinv
  | closeOp reason =>
    simp only [step, Except.ok.injEq] at hstep
    have h1 : _ = s' := congrArg Prod.fst hstep
    exact connAppIdInv_congr (by rw [← h1]; exact close_fst_connectionAppId ..)
      (by rw [← h1]; exact close_fst_clientAppId ..) hinv
  | pauseOp =>
    simp only [step, Except.ok.injEq] at hstep
    have h1 : _ = s' := congrArg Prod.fst hstep
    exact connAppIdInv_congr (by rw [← h1]; try rfl) (by rw [← h1]; try rfl) hinv
  | unpauseOp =>
    simp only [step, Except.ok.injEq] at hstep
    have h1 : _ = s' := congrArg Prod.fst hstep
    exact connAppIdInv_congr (by rw [← h1]; try rfl) (by rw [← h1]; try rfl) hinv


/-- C1 (refuting evaluation): `setApp` has no guard against the "closed"
status — `setConnectionStatus("idle")` and then the `startAppConnection`
prefix run unconditionally — so from a reachable closed state, `setApp`
drives the status out of "closed" (to "idle" and then "loading"),
contradicting the claim (and the FSM documentation in client.ts) that
"closed" is terminal. -/
theorem setApp_escapes_closed :
    exampleClosedState.status = ClientConnectionStatus.closed ∧
    (step exampleClosedState (ClientOp.setAppOp (some "game2"))).map
        (fun p => p.1.status) = Except.ok ClientConnectionStatus.loading :=
  ⟨rfl, rfl⟩

/-- Witness for C3: the invariant holds after the accepting access envelope
is dispatched against the concrete negotiating state. -/
theorem connectionAppId_never_stale_witness : connAppIdInv exAccessGranted :=
  connectionAppId_never_stale.2 exNegotiating
    (ClientOp.inbound (Message.access (some "game1") true none)) exAccessGranted []
    (Or.inl rfl) rfl

/-- C6: an interrupt of the negotiation/first-message wait by a transition to
"idle" is swallowed silently (normal return, loading timeout disarmed),
while a transition to "closed" rejects with the connection-closed error,
which is rethrown to the caller of `setApp`. -/
theorem cancellation_silent_closed_raises :
    ∀ (armed : Bool) (reason : Option String),
      startAppConnectionOnWaitInterrupt armed
          { status := ClientConnectionStatus.idle, reason := reason } =
        { result := Except.ok (), loadingTimeoutArmed := false } ∧
      startAppConnectionOnWaitInterrupt armed
          { status := ClientConnectionStatus.closed, reason := reason } =
        { result := Except.error (ConnError.errorMsg
            "Connection closed while waiting for first application message")
          loadingTimeoutArmed := armed } :=
  fun _ _ => ⟨rfl, rfl⟩

lemma setConnectionStatus_snd (s : ClientState) (st : ClientConnectionStatus)
    (r : Option String) (h : st ≠ s.status) :
    (setConnectionStatus s st r).2 =
      [Event.statusNotify s.statusListeners
        { status := st
          reason := if st = ClientConnectionStatus.closed then r else none }] := by
  unfold setConnectionStatus notifyStatusListeners
  rw [if_neg h]

/-- C10: every status-change notification carries
`reason := if closed then reason else undefined`; in particular a transition
to "idle", "loading" or "open" always delivers an undefined reason, even when
a reason argument was supplied. -/
theorem closed_only_reason_notification :
    ∀ (s : ClientState) (st : ClientConnectionStatus) (r : Option String),
      st ≠ s.status →
      (setConnectionStatus s st r).2 =
        [Event.statusNotify s.statusListeners
          { status := st
            reason := if st = ClientConnectionStatus.closed then r else none }] ∧
      (st ≠ ClientConnectionStatus.closed →
        (setConnectionStatus s st r).2 =
          [Event.statusNotify s.statusListeners { status := st, reason := none }]) := by
  intro s st r h
  refine ⟨setConnectionStatus_snd s st r h, fun hc => ?_⟩
  rw [setConnectionStatus_snd s st r h, if_neg hc]

/-- Witness for C10: a transition to "open" with a supplied reason delivers
an undefined reason. -/
theorem closed_only_reason_notification_witness :
    (setConnectionStatus exNegotiating ClientConnectionStatus.open_ (some "why")).2 =
      [Event.statusNotify exNegotiating.statusListeners
        { status := ClientConnectionStatus.open_, reason := none }] :=
  (closed_only_reason_notification exNegotiating ClientConnectionStatus.open_
    (some "why") (by decide)).2 (by decide)


lemma evictOverflow_eq_drop (size : Nat) (q : List (Option Payload)) :
    evictOverflow size q = q.drop (q.length - size) := by
  induction q with
  | nil => simp [evictOverflow]
  | cons x xs ih =>
    unfold evictOverflow
    split
    · rename_i h
      rw [ih]
      have hlen : (x :: xs).length - size = (xs.length - size) + 1 := by
        simp only [List.length_cons]
        omega
      rw [hlen]
      rfl
    · rename_i h
      have hz : (x :: xs).length - size = 0 := by
        simp only [List.length_cons]
        omega
      rw [hz]
      rfl

lemma pushQueue_length_le (size : Nat) (q : List (Option Payload)) (m : Payload)
    (h : q.length ≤ size) : (pushQueue size q m).length ≤ size := by
  unfold pushQueue
  rw [evictOverflow_eq_drop, List.length_drop, List.length_append]
  simp only [List.length_cons, List.length_nil]
  omega

lemma pushAll_length_le (size : Nat) (ms : List Payload) :
    ∀ q : List (Option Payload), q.length ≤ size →
      (pushAll size q ms).length ≤ size := by
  induction ms with
  | nil => intro q h; exact h
  | cons m ms ih =>
    intro q h
    exact ih (pushQueue size q m) (pushQueue_length_le size q m h)

lemma pushQueue_of_full (size : Nat) (q : List (Option Payload)) (m : Payload)
    (h : q.length = size) (hpos : 0 < size) :
    pushQueue size q m = q.tail ++ [some m] := by
  unfold pushQueue
  rw [evictOverflow_eq_drop, List.length_append]
  simp only [List.length_cons, List.length_nil, h]
  have h1 : size + (0 + 1) - size = 1 := by omega
  rw [h1]
  rw [List.drop_append_of_le_length (by omega : 1 ≤ q.length)]
  rw [List.drop_one]

lemma pushAll_of_full (size : Nat) (hpos : 0 < size) (ms : List Payload) :
    ∀ q : List (Option Payload), q.length = size →
      pushAll size q ms = (q ++ ms.map some).drop ms.length := by
  induction ms with
  | nil => intro q h; simp [pushAll]
  | cons m ms ih =>
    intro q h
    have hqne : q ≠ [] := by
      intro hq
      rw [hq] at h
      simp at h
      omega
    have hstep : pushAll size q (m :: ms) = pushAll size (q.tail ++ [some m]) ms := by
      show pushAll size (pushQueue size q m) ms = _
      rw [pushQueue_of_full size q m h hpos]
    rw [hstep, ih (q.tail ++ [some m]) (by
      rw [List.length_append, List.length_tail]
      simp only [List.length_cons, List.length_nil]
      omega)]
    have htail : (q.tail ++ [some m]) ++ ms.map some = (q ++ ([some m] ++ ms.map some)).tail := by
      cases q with
      | nil => exact absurd rfl hqne
      | cons a as => simp
    rw [htail, ← List.drop_one, List.drop_drop]
    have : (q ++ ([some m] ++ ms.map some)) = q ++ (m :: ms).map some := by simp
    rw [this]
    have : (1 : Nat) + ms.length = (m :: ms).length := by simp; omega
    rw [this]

/-- C4: the message queue never exceeds its configured capacity (default 256)
under any sequence of pushes, and pushing capacity+1 messages into the
constructor-initial queue evicts the oldest pushed message first (FIFO). -/
theorem messageQueue_capacity_fifo :
    DEFAULT_MESSAGE_QUEUE_SIZE = 256 ∧
    messageQueueSizeOf {} = 256 ∧
    (∀ (size : Nat) (q : List (Option Payload)) (ms : List Payload),
      q.length ≤ size → (pushAll size q ms).length ≤ size) ∧
    (∀ (size : Nat) (ms : List Payload), 0 < size → ms.length = size + 1 →
      pushAll size (initialMessageQueue size) ms = (ms.drop 1).map some) := by
  refine ⟨rfl, rfl, fun size q ms h => pushAll_length_le size ms q h, ?_⟩
  intro size ms hpos hlen
  rw [pushAll_of_full size hpos ms (initialMessageQueue size)
    (by simp [initialMessageQueue])]
  rw [show ms.length = (initialMessageQueue size).length + 1 by
    simp [initialMessageQueue]; omega]
  rw [show ((initialMessageQueue size) ++ ms.map some).drop ((initialMessageQueue size).length + 1) = (ms.map some).drop 1 by simp [List.drop_append]]
  rw [List.map_drop]

/-- Witness for C4: with capacity 2, three pushes keep the length at 2 and
evict the first message. -/
theorem messageQueue_capacity_fifo_witness :
    (pushAll 2 (initialMessageQueue 2) [Payload.num 1, Payload.num 2]).length ≤ 2 ∧
    pushAll 2 (initialMessageQueue 2) [Payload.num 1, Payload.num 2, Payload.num 3] =
      ([Payload.num 1, Payload.num 2, Payload.num 3].drop 1).map some :=
  ⟨messageQueue_capacity_fifo.2.2.1 2 (initialMessageQueue 2)
      [Payload.num 1, Payload.num 2] (by decide),
    messageQueue_capacity_fifo.2.2.2 2 [Payload.num 1, Payload.num 2, Payload.num 3]
      (by decide) (by decide)⟩


lemma setConnectionStatus_fst_status (s : ClientState)
    (st : ClientConnectionStatus) (r : Option String) (h : st ≠ s.status) :
    (setConnectionStatus s st r).1.status = st := by
  unfold setConnectionStatus
  rw [if_neg h]

lemma closeSocket_fst_status (s : ClientState) :
    (closeSocket s).1.status = s.status := by
  unfold closeSocket
  split <;> rfl

lemma closeSocket_snd (s : ClientState) :
    (closeSocket s).2 = if s.socketOpen then [Event.socketClosed] else [] := by
  unfold closeSocket
  split <;> simp [*]

lemma close_fst_status (s : ClientState) (r : Option String) :
    (close s r).1.status = ClientConnectionStatus.closed := by
  unfold close
  split
  · rename_i h
    exact h
  · rename_i h
    show (closeSocket (setConnectionStatus s ClientConnectionStatus.closed r).1).1.status = _
    rw [closeSocket_fst_status]
    exact setConnectionStatus_fst_status s ClientConnectionStatus.closed r
      (fun hc => h hc.symm)

lemma close_of_closed (s : ClientState) (r : Option String)
    (h : s.status = ClientConnectionStatus.closed) : close s r = (s, []) := by
  unfold close
  rw [if_pos h]

lemma countClosedNotifies_close (s : ClientState) (r : Option String)
    (h : s.status ≠ ClientConnectionStatus.closed) :
    countClosedNotifies (close s r).2 = 1 := by
  unfold close
  rw [if_neg h]
  show countClosedNotifies
    ((setConnectionStatus s ClientConnectionStatus.closed r).2 ++
      (closeSocket (setConnectionStatus s ClientConnectionStatus.closed r).1).2) = 1
  rw [setConnectionStatus_snd s ClientConnectionStatus.closed r (fun hc => h hc.symm)]
  rw [closeSocket_snd]
  by_cases hso : (setConnectionStatus s ClientConnectionStatus.closed r).1.socketOpen = true
  · rw [if_pos hso]
    simp [countClosedNotifies, isClosedStatusNotify]
  · rw [if_neg hso]
    simp [countClosedNotifies, isClosedStatusNotify]

/-- C5 (refuting evaluation): from a state whose status is already "closed"
(with a status listener registered), calling `close` twice produces zero
"closed" notifications, not exactly one. -/
theorem close_twice_from_closed_no_notification :
    ¬ countClosedNotifies (closeTwice exClosedWithListener (some "a") (some "b")).2 = 1 := by
  decide

/-- C5 (amended): calling `close` twice from a state that is not yet closed
produces exactly one "closed" status notification and the second call changes
nothing; from an already-closed state both calls change nothing and emit no
notification. -/
theorem close_idempotent_amended :
    ∀ (s : ClientState) (r1 r2 : Option String),
      (s.status ≠ ClientConnectionStatus.closed →
        countClosedNotifies (closeTwice s r1 r2).2 = 1 ∧
        close (close s r1).1 r2 = ((close s r1).1, [])) ∧
      (s.status = ClientConnectionStatus.closed → closeTwice s r1 r2 = (s, [])) := by
  intro s r1 r2
  constructor
  · intro h
    have h2 : close (close s r1).1 r2 = ((close s r1).1, []) :=
      close_of_closed _ r2 (close_fst_status s r1)
    refine ⟨?_, h2⟩
    unfold closeTwice
    rw [h2]
    simp only [List.append_nil]
    exact countClosedNotifies_close s r1 h
  · intro h
    unfold closeTwice
    rw [close_of_closed s r1 h]
    simp [close_of_closed s r2 h]

/-- Witness for the amended C5: from the concrete negotiating (non-closed)
state, two closes emit exactly one closed notification and the second call
is a no-op. -/
theorem close_idempotent_amended_witness :
    countClosedNotifies (closeTwice exNegotiating (some "a") (some "b")).2 = 1 ∧
    close (close exNegotiating (some "a")).1 (some "b") =
      ((close exNegotiating (some "a")).1, []) :=
  (close_idempotent_amended exNegotiating (some "a") (some "b")).1 (by decide)


lemma jsMapGet_map_set {α β : Type} [DecidableEq α] (k : α) (v : β) :
    ∀ m : List (α × β), (m.find? (fun p => p.1 = k)).isSome →
      jsMapGet (m.map (fun p => if p.1 = k then (k, v) else p)) k = some v := by
  intro m
  induction m with
  | nil => intro hf; simp at hf
  | cons hd tl ih =>
    intro hf
    by_cases hh : hd.1 = k
    · simp [jsMapGet, List.find?_cons, hh]
    · have hf' : (tl.find? (fun p => p.1 = k)).isSome := by
        simpa [List.find?_cons, hh] using hf
      simpa [jsMapGet, List.find?_cons, hh] using ih hf'

lemma jsMapGet_append_single {α β : Type} [DecidableEq α] (k : α) (v : β) :
    ∀ m : List (α × β), (m.find? (fun p => p.1 = k)).isSome = false →
      jsMapGet (m ++ [(k, v)]) k = some v := by
  intro m
  induction m with
  | nil => intro _; simp [jsMapGet, List.find?_cons]
  | cons hd tl ih =>
    intro hf
    have hh : ¬ hd.1 = k := by
      intro hck
      simp [List.find?_cons, hck] at hf
    have hf' : (tl.find? (fun p => p.1 = k)).isSome = false := by
      simpa [List.find?_cons, hh] using hf
    simpa [jsMapGet, List.find?_cons, hh] using ih hf'

lemma jsMapGet_jsMapSet_self {α β : Type} [DecidableEq α]
    (m : List (α × β)) (k : α) (v : β) :
    jsMapGet (jsMapSet m k v) k = some v := by
  unfold jsMapSet
  by_cases hf : (m.find? (fun p => p.1 = k)).isSome
  · rw [if_pos hf]
    exact jsMapGet_map_set k v m hf
  · rw [if_neg hf]
    exact jsMapGet_append_single k v m (Bool.eq_false_iff.mpr hf)

lemma nonAccessGuard_none (s : ClientState) (t : String)
    (h1 : jsFalsyString s.connectionAppId = false)
    (h2 : s.connectionAppId = s.clientAppId) : nonAccessGuard s t = none := by
  unfold nonAccessGuard
  rw [h1]
  simp [h2]

/-- C2 (amended): whichever of matching-response arrival or timeout expiry
occurs first settles the request promise (and a response clears the timer),
and later occurrences settle nothing further; but the entry is retained in
the request tracker in all cases — it is never removed by either outcome. -/
theorem request_entry_retained_single_outcome :
    ∀ (s : ClientState) (rid : String) (body : Payload),
      jsFalsyString s.connectionAppId = false →
      s.connectionAppId = s.clientAppId →
      rid ≠ "" →
      ((jsMapGet s.requests rid = some { timerArmed := true, outcome := none } →
        (onMessage s (Message.applicationApp body (some rid)) =
          Except.ok ({ s with requests := (jsMapSet s.requests rid
                        { timerArmed := false,
                          outcome := some (RequestOutcome.resolved body) }) },
            [Event.requestResolve rid body]) ∧
         jsMapGet (jsMapSet s.requests rid
             { timerArmed := false,
               outcome := some (RequestOutcome.resolved body) }) rid =
           some { timerArmed := false,
                  outcome := some (RequestOutcome.resolved body) }) ∧
        (requestTimeoutFire s rid =
          ({ s with requests := (jsMapSet s.requests rid
                      { timerArmed := false, outcome := some RequestOutcome.timedOut }) },
            [Event.requestRejectTimeout rid]) ∧
         jsMapGet (jsMapSet s.requests rid
             { timerArmed := false, outcome := some RequestOutcome.timedOut }) rid =
           some { timerArmed := false, outcome := some RequestOutcome.timedOut })) ∧
      (∀ (o : RequestOutcome) (tA : Bool),
        jsMapGet s.requests rid = some { timerArmed := tA, outcome := some o } →
        onMessage s (Message.applicationApp body (some rid)) =
          Except.ok ({ s with requests := (jsMapSet s.requests rid
                        { timerArmed := false, outcome := some o }) }, []) ∧
        (tA = false → requestTimeoutFire s rid = (s, [])))) := by
  intro s rid body hfalsy heq hrid
  constructor
  · intro hget
    have hcontains : jsMapContains s.requests rid = true := by
      unfold jsMapContains
      rw [hget]
      rfl
    refine ⟨⟨?_, jsMapGet_jsMapSet_self ..⟩, ?_, jsMapGet_jsMapSet_self ..⟩
    · simp only [onMessage, nonAccessGuard_none s "app" hfalsy heq]
      rw [if_pos hrid, hcontains, hget]
      rfl
    · unfold requestTimeoutFire
      rw [hget]
      rfl
  · intro o tA hget
    have hcontains : jsMapContains s.requests rid = true := by
      unfold jsMapContains
      rw [hget]
      rfl
    constructor
    · simp only [onMessage, nonAccessGuard_none s "app" hfalsy heq]
      rw [if_pos hrid, hcontains, hget]
      rfl
    · intro htA
      unfold requestTimeoutFire
      rw [hget, htA]
      rfl


/-- C2 (refuting evaluation): after the matching response for pending request
"r1" has been dispatched, the request tracker still contains "r1" — the entry
is not removed on response (nor on timeout). -/
theorem request_entry_not_removed :
    (onMessage exReqPending
        (Message.applicationApp (Payload.num 5) (some "r1"))).toOption.map
      (fun p => jsMapContains p.1.requests "r1") = some true ∧
    ¬ (onMessage exReqPending
        (Message.applicationApp (Payload.num 5) (some "r1"))).toOption.map
      (fun p => jsMapContains p.1.requests "r1") = some false := by
  constructor
  · rfl
  · decide

/-- Witness for the amended C2, at the concrete pending-request state. -/
theorem request_entry_retained_single_outcome_witness :
    (onMessage exReqPending (Message.applicationApp (Payload.num 5) (some "r1")) =
      Except.ok ({ exReqPending with requests := (jsMapSet exReqPending.requests "r1"
          { timerArmed := false,
            outcome := some (RequestOutcome.resolved (Payload.num 5)) }) },
        [Event.requestResolve "r1" (Payload.num 5)]) ∧
      jsMapGet (jsMapSet exReqPending.requests "r1"
          { timerArmed := false,
            outcome := some (RequestOutcome.resolved (Payload.num 5)) }) "r1" =
        some { timerArmed := false,
               outcome := some (RequestOutcome.resolved (Payload.num 5)) }) ∧
    (requestTimeoutFire exReqPending "r1" =
      ({ exReqPending with requests := (jsMapSet exReqPending.requests "r1"
          { timerArmed := false, outcome := some RequestOutcome.timedOut }) },
        [Event.requestRejectTimeout "r1"]) ∧
      jsMapGet (jsMapSet exReqPending.requests "r1"
          { timerArmed := false, outcome := some RequestOutcome.timedOut }) "r1" =
        some { timerArmed := false, outcome := some RequestOutcome.timedOut }) :=
  (request_entry_retained_single_outcome exReqPending "r1" (Payload.num 5)
    (by decide) (by decide) (by decide)).1 (by decide)


lemma addMessageListener_snd (s : ClientState) (l : Nat)
    (opts : Option AddMessageListenerOptions) :
    (addMessageListener s l opts).2 =
      (s.messageQueue.take
        ((opts.bind AddMessageListenerOptions.queueCount).getD s.messageQueueSize)).filterMap
        (fun x => x) := by
  simp only [addMessageListener]
  split
  · rename_i h
    simp [h]
  · rfl

/-- C7: a listener registered with `queueCount = k` synchronously receives at
most `k` buffered payloads, in their original buffer order; with `queueCount`
unset the bound is the full queue capacity, and the whole buffer is replayed
when its length fits the capacity; replay happens only at registration —
every later fan-out event delivers only the newly arrived message. -/
theorem listener_replay_bounded_ordered_once :
    ∀ (s : ClientState) (l : Nat) (opts : Option AddMessageListenerOptions),
      (∀ k : Nat, opts.bind AddMessageListenerOptions.queueCount = some k →
        (addMessageListener s l opts).2.length ≤ k ∧
        List.Sublist (addMessageListener s l opts).2
          (s.messageQueue.filterMap (fun x => x))) ∧
      (opts.bind AddMessageListenerOptions.queueCount = none →
        (addMessageListener s l opts).2.length ≤ s.messageQueueSize ∧
        (s.messageQueue.length ≤ s.messageQueueSize →
          (addMessageListener s l opts).2 = s.messageQueue.filterMap (fun x => x))) ∧
      (∀ (m : Payload) (e : Event),
        e ∈ notifyMessageListeners (addMessageListener s l opts).1 m →
        ∃ recips, e = Event.messageNotify recips m) := by
  intro s l opts
  refine ⟨fun k hk => ?_, fun hk => ⟨?_, fun hlen => ?_⟩, fun m e he => ?_⟩
  · rw [addMessageListener_snd, hk, Option.getD_some]
    exact ⟨le_trans (List.length_filterMap_le _ _) (List.length_take_le _ _),
      (List.take_sublist _ _).filterMap _⟩
  · rw [addMessageListener_snd, hk, Option.getD_none]
    exact le_trans (List.length_filterMap_le _ _) (List.length_take_le _ _)
  · rw [addMessageListener_snd, hk, Option.getD_none, List.take_of_length_le hlen]
  · unfold notifyMessageListeners at he
    simp only [List.mem_singleton] at he
    exact ⟨_, he⟩

/-- Witness for C7: at the concrete two-listener state, registering with
`queueCount = 1` replays at most one payload, in buffer order. -/
theorem listener_replay_bounded_ordered_once_witness :
    (addMessageListener exListeners 5 (some { queueCount := some 1 })).2.length ≤ 1 ∧
    List.Sublist (addMessageListener exListeners 5 (some { queueCount := some 1 })).2
      (exListeners.messageQueue.filterMap (fun x => x)) :=
  (listener_replay_bounded_ordered_once exListeners 5
    (some { queueCount := some 1 })).1 1 rfl

/-- C8: an inbound ApplicationApp envelope without a correlation id whose body
is the empty-initial sentinel is never pushed to the message queue (the state
is unchanged), and it is delivered exactly to the listeners registered with
`ignoreEmptyInitialMessage = false`; a listener registered with the default
options ignores the sentinel. -/
theorem empty_initial_not_stored_optin_delivery :
    ∀ (s : ClientState) (body : Payload),
      jsFalsyString s.connectionAppId = false →
      s.connectionAppId = s.clientAppId →
      messageIsEmptyInitial body = true →
      onMessage s (Message.applicationApp body none) =
        Except.ok (s, [Event.messageNotify
          (s.messageListeners.filter (fun l => !(listenerIgnoresEmptyInitial s l)))
          body]) ∧
      (∀ l : Nat,
        l ∈ s.messageListeners.filter (fun l => !(listenerIgnoresEmptyInitial s l)) ↔
        l ∈ s.messageListeners ∧ listenerIgnoresEmptyInitial s l = false) ∧
      (∀ (s2 : ClientState) (l : Nat),
        listenerIgnoresEmptyInitial (addMessageListener s2 l none).1 l = true) := by
  intro s body hfalsy heq hsentinel
  refine ⟨?_, ?_, ?_⟩
  · simp only [onMessage, nonAccessGuard_none s "app" hfalsy heq]
    simp only [handleAppBody, notifyMessageListeners, hsentinel, ite_true]
  · intro l
    simp [List.mem_filter]
  · intro s2 l
    unfold listenerIgnoresEmptyInitial
    have hinfo : (addMessageListener s2 l none).1.messageListenersInfo =
        jsMapSet s2.messageListenersInfo l { ignoreEmptyInitialMessage := true } := by
      simp only [addMessageListener]
      split <;> rfl
    rw [hinfo, jsMapGet_jsMapSet_self]

/-- Witness for C8: at the concrete two-listener state, the sentinel is not
stored and is delivered only to the opted-in listener. -/
theorem empty_initial_not_stored_optin_delivery_witness :
    onMessage exListeners (Message.applicationApp (Payload.obj ["__start"]) none) =
      Except.ok (exListeners, [Event.messageNotify
        (exListeners.messageListeners.filter
          (fun l => !(listenerIgnoresEmptyInitial exListeners l)))
        (Payload.obj ["__start"])]) :=
  (empty_initial_not_stored_optin_delivery exListeners (Payload.obj ["__start"])
    (by decide) (by decide) (by decide)).1

/-- C9 (refuting evaluation): with the negotiated app id equal to the
requested one but empty, dispatching an unmatched correlated response throws
(the `!this.connectionAppId` guard treats the empty string as falsy) instead
of being silently ignored. -/
theorem unmatched_response_empty_appid_throws :
    exEmptyAppId.connectionAppId ≠ none ∧
    exEmptyAppId.connectionAppId = exEmptyAppId.clientAppId ∧
    jsMapContains exEmptyAppId.requests "r1" = false ∧
    onMessage exEmptyAppId (Message.applicationApp (Payload.num 5) (some "r1")) =
      Except.error
        "Router sent an app-generated message of type 'app' but current app is unknown" :=
  ⟨by decide, rfl, rfl, rfl⟩

/-- C9 (amended): for every state whose negotiated app id is non-null,
non-empty and equal to the requested id, an ApplicationApp envelope with an
unmatched correlation id raises no exception, notifies no listener and leaves
the state unchanged. -/
theorem unmatched_response_silently_ignored :
    ∀ (s : ClientState) (rid : String) (body : Payload),
      jsFalsyString s.connectionAppId = false →
      s.connectionAppId = s.clientAppId →
      rid ≠ "" →
      jsMapContains s.requests rid = false →
      onMessage s (Message.applicationApp body (some rid)) = Except.ok (s, []) := by
  intro s rid body hfalsy heq hrid hnc
  simp only [onMessage, nonAccessGuard_none s "app" hfalsy heq]
  rw [if_pos hrid, hnc]
  rfl

/-- Witness for the amended C9, at the concrete no-pending-requests state. -/
theorem unmatched_response_silently_ignored_witness :
    onMessage exNoPending (Message.applicationApp (Payload.num 5) (some "r1")) =
      Except.ok (exNoPending, []) :=
  unmatched_response_silently_ignored exNoPending "r1" (Payload.num 5)
    (by decide) (by decide) (by decide) (by decide)

end FootronControls
